import Mathlib

/-!
Verification of the dbkit transaction manager (tx.go) and migration engine
(softdelete.go / migrations) against its specification, over a shallow
embedding of the Go source.

Modelling conventions:

* `database/sql` transaction handles are modelled by an explicit status
  (`PhysStatus`) plus boolean fault injectors for commit/rollback failures;
  `sql.ErrTxDone` is the error the driver returns on commit/rollback of a
  finished transaction.
* The writes a callback performs inside a transaction are abstracted as a
  list of `Nat` tokens appended to the transaction's pending list; savepoints
  record the pending length at creation, exactly mirroring the SQL semantics
  of SAVEPOINT / ROLLBACK TO SAVEPOINT / RELEASE SAVEPOINT over one physical
  transaction.
* Every SQL statement the manager issues is recorded in a `log` so that
  claims of the form "the engine issues RELEASE SAVEPOINT" are statable.
* Go's `error` cause chains are flattened: the composite errors built with
  `fmt.Errorf(..., rbErr, err)` are modelled by constructors carrying both
  components, which is exactly the information the format string preserves.
-/

namespace DBKit

/-! ### Error model (errors.go) -/

/-- ErrorCode classifies database errors; in Go it is a string type. -/
abbrev ErrorCode := String

def CodeNotFound : ErrorCode := "NOT_FOUND"

def CodeDuplicate : ErrorCode := "DUPLICATE"

def CodeForeignKey : ErrorCode := "FOREIGN_KEY"

def CodeCheckViolation : ErrorCode := "CHECK_VIOLATION"

def CodeNotNullViolation : ErrorCode := "NOT_NULL"

def CodeConnectionFailed : ErrorCode := "CONNECTION_FAILED"

def CodeTimeout : ErrorCode := "TIMEOUT"

def CodeSerialization : ErrorCode := "SERIALIZATION"

def CodeDeadlock : ErrorCode := "DEADLOCK"

def CodeUnknown : ErrorCode := "UNKNOWN"

/-- The const block of error codes of errors.go, in source order. -/
def errorCodes : List ErrorCode :=
  [CodeNotFound, CodeDuplicate, CodeForeignKey, CodeCheckViolation,
   CodeNotNullViolation, CodeConnectionFailed, CodeTimeout,
   CodeSerialization, CodeDeadlock, CodeUnknown]

/-- Error mirrors the rich error struct of errors.go.  The Go `Cause error`
field (an arbitrary wrapped error value) is not carried: where a claim needs
the preserved cause, the surrounding result type carries it explicitly. -/
structure Error where
  Code : ErrorCode
  Message : String
  Op : String := ""
  Table : String := ""
  Column : String := ""
  Constraint : String := ""
  Detail : String := ""
  Hint : String := ""
  Query : String := ""
deriving DecidableEq, Repr

/-- PgError mirrors the fields of `pgconn.PgError` read by `wrapPgError`. -/
structure PgError where
  Code : String
  Message : String
  TableName : String := ""
  ColumnName : String := ""
  ConstraintName : String := ""
  Detail : String := ""
  Hint : String := ""
deriving DecidableEq, Repr

/-- wrapPgError of errors.go: maps a PostgreSQL error code to the taxonomy. -/
def wrapPgError (pgErr : PgError) (op : String) : Error :=
  let e : Error :=
    { Code := CodeUnknown, Message := "", Op := op, Table := pgErr.TableName,
      Column := pgErr.ColumnName, Constraint := pgErr.ConstraintName,
      Detail := pgErr.Detail, Hint := pgErr.Hint }
  match pgErr.Code with
  | "23505" => { e with Code := CodeDuplicate,
                        Message := "duplicate key value violates unique constraint" }
  | "23503" => { e with Code := CodeForeignKey,
                        Message := "foreign key constraint violation" }
  | "23502" => { e with Code := CodeNotNullViolation,
                        Message := "null value in column violates not-null constraint" }
  | "23514" => { e with Code := CodeCheckViolation,
                        Message := "check constraint violation" }
  | "40001" => { e with Code := CodeSerialization,
                        Message := "serialization failure, retry transaction" }
  | "40P01" => { e with Code := CodeDeadlock,
                        Message := "deadlock detected" }
  | "57014" => { e with Code := CodeTimeout,
                        Message := "query was cancelled due to timeout" }
  | "08000" => { e with Code := CodeConnectionFailed,
                        Message := "database connection failed" }
  | "08003" => { e with Code := CodeConnectionFailed,
                        Message := "database connection failed" }
  | "08006" => { e with Code := CodeConnectionFailed,
                        Message := "database connection failed" }
  | _ => { e with Code := CodeUnknown, Message := pgErr.Message }

/-! ### The database/sql layer under tx.go -/

/-- Errors the modelled sql layer can produce. -/
inductive SqlErr
  | txDone
  | connErr
deriving DecidableEq, Repr

def sqlErrMessage : SqlErr → String
  | .txDone => "sql: transaction has already been committed or rolled back"
  | .connErr => "driver: bad connection"

/-- wrapError of errors.go restricted to the sql-layer errors of this model:
neither is a `*dbkit.Error`, the no-rows sentinel, or a `*pgconn.PgError`,
so generic wrapping with `CodeUnknown` applies. -/
def wrapError (e : SqlErr) (op : String) : Error :=
  { Code := CodeUnknown, Message := sqlErrMessage e, Op := op }

/-- Status of the underlying physical `sql.Tx`. -/
inductive PhysStatus
  | opened
  | committed
  | rolledBack
deriving DecidableEq, Repr

/-- Commit on the underlying `sql.Tx`: `sql.ErrTxDone` once finished;
`fail` injects a driver failure while the transaction is still open. -/
def sqlCommit (st : PhysStatus) (fail : Bool) : PhysStatus × Option SqlErr :=
  match st with
  | .opened => if fail then (.opened, some .connErr) else (.committed, none)
  | _ => (st, some .txDone)

/-- Rollback on the underlying `sql.Tx`: `sql.ErrTxDone` once finished;
`fail` injects a driver failure while the transaction is still open. -/
def sqlRollback (st : PhysStatus) (fail : Bool) : PhysStatus × Option SqlErr :=
  match st with
  | .opened => if fail then (.opened, some .connErr) else (.rolledBack, none)
  | _ => (st, some .txDone)

/-- Tx.Commit of tx.go: wraps any commit error. -/
def txCommit (st : PhysStatus) (fail : Bool) : PhysStatus × Option Error :=
  match sqlCommit st fail with
  | (st', none) => (st', none)
  | (st', some e) => (st', some (wrapError e "Commit"))

/-- Tx.Rollback of tx.go: an `sql.ErrTxDone` result (already committed or
already rolled back) is deliberately ignored and reported as success. -/
def txRollback (st : PhysStatus) (fail : Bool) : PhysStatus × Option Error :=
  match sqlRollback st fail with
  | (st', none) => (st', none)
  | (st', some e) =>
      if e = SqlErr.txDone then (st', none) else (st', some (wrapError e "Rollback"))

/-! ### Transaction scope state (writes, savepoints, shared counter) -/

/-- State of one physical transaction as seen by its scopes: the pending
writes, the savepoint stack (name, pending length at creation; newest
first), the shared savepoint counter `savepointSeq`, and the log of SQL
statements issued so far. -/
structure TxState where
  pending : List Nat
  saves : List (String × Nat)
  seq : Nat
  log : List String
deriving DecidableEq, Repr

/-- The scope state right after `BeginTx` (`seq := int64(0)` in tx.go). -/
def newTxState : TxState :=
  { pending := [], saves := [], seq := 0, log := [] }

/-- A data write executed by a callback inside the transaction. -/
def execWrite (tx : TxState) (w : Nat) : TxState :=
  { tx with pending := tx.pending ++ [w], log := tx.log ++ ["WRITE " ++ toString w] }

/-- Executing `SAVEPOINT name`: records the current pending length. -/
def execSavepoint (tx : TxState) (name : String) : TxState :=
  { tx with saves := (name, tx.pending.length) :: tx.saves,
            log := tx.log ++ ["SAVEPOINT " ++ name] }

/-- Pops savepoints newer than `name`; returns the stack from `name`
(inclusive) together with the pending length recorded for `name`. -/
def findSave : List (String × Nat) → String → Option (List (String × Nat) × Nat)
  | [], _ => none
  | (n, m) :: rest, name =>
      if n = name then some ((n, m) :: rest, m) else findSave rest name

/-- Executing `ROLLBACK TO SAVEPOINT name`: discards writes made after the
savepoint and savepoints established after it; the savepoint itself
survives.  Fails (second component `false`) when the savepoint is unknown. -/
def execRollbackTo (tx : TxState) (name : String) : TxState × Bool :=
  let tx := { tx with log := tx.log ++ ["ROLLBACK TO SAVEPOINT " ++ name] }
  match findSave tx.saves name with
  | some (stack, m) => ({ tx with pending := tx.pending.take m, saves := stack }, true)
  | none => (tx, false)

/-- Executing `RELEASE SAVEPOINT name`: keeps the writes, destroys the
savepoint and any established after it. -/
def execRelease (tx : TxState) (name : String) : TxState × Bool :=
  let tx := { tx with log := tx.log ++ ["RELEASE SAVEPOINT " ++ name] }
  match findSave tx.saves name with
  | some (stack, _) => ({ tx with saves := stack.drop 1 }, true)
  | none => (tx, false)

/-- How a transaction callback (`TxFunc`) can end: normal return with no
error, return with an error value, or a Go panic carrying a payload. -/
inductive FnOut (E : Type)
  | ok
  | err (e : E)
  | panik (p : Nat)

/-- Result of `TransactionWithOptions`.  `rollbackFailed` mirrors
`fmt.Errorf("dbkit: rollback failed: %v (original error: %w)", rbErr, err)`,
carrying both components; `panicked` is a propagating Go panic. -/
inductive RunOut (E : Type)
  | ok
  | fnErr (e : E)
  | rollbackFailed (rb : Error) (orig : E)
  | commitErr (ce : Error)
  | beginErr (be : Error)
  | panicked (p : Nat)

/-- Actions the manager performs on the physical transaction, in order. -/
inductive MgrAct
  | beginAct
  | rollbackAct
  | commitAct
deriving DecidableEq, Repr

/-- The durable database state outside any transaction. -/
structure DB where
  committed : List Nat
deriving DecidableEq, Repr

/-- Fault injectors for the physical-transaction boundary. -/
structure TxEnv where
  beginFails : Bool
  rollbackFails : Bool
  commitFails : Bool
deriving DecidableEq, Repr

/-- TransactionWithOptions of tx.go (DBKit.TransactionWithOptions): begins a
physical transaction, runs `fn` on a fresh scope whose savepoint counter
starts at 0, then

* on a panic inside `fn`: the deferred recover attempts rollback, discards
  its error, and re-panics with the original payload;
* on `fn` returning an error: rolls back; a rollback failure yields the
  composite error carrying both; otherwise the error is returned unchanged;
* on success: commits, making the pending writes durable; a commit failure
  is wrapped (already a `*dbkit.Error` from Tx.Commit, so returned as is).

Returns the resulting durable state, the actions taken, and the outcome. -/
def TransactionWithOptions {E : Type} (env : TxEnv) (db : DB)
    (fn : TxState → TxState × FnOut E) : DB × List MgrAct × RunOut E :=
  if env.beginFails then
    (db, [MgrAct.beginAct], RunOut.beginErr (wrapError SqlErr.connErr "Transaction.Begin"))
  else
    match fn newTxState with
    | (_, FnOut.panik p) =>
        (db, [MgrAct.beginAct, MgrAct.rollbackAct], RunOut.panicked p)
    | (_, FnOut.err e) =>
        match txRollback PhysStatus.opened env.rollbackFails with
        | (_, some rbErr) =>
            (db, [MgrAct.beginAct, MgrAct.rollbackAct], RunOut.rollbackFailed rbErr e)
        | (_, none) =>
            (db, [MgrAct.beginAct, MgrAct.rollbackAct], RunOut.fnErr e)
    | (tx1, FnOut.ok) =>
        match txCommit PhysStatus.opened env.commitFails with
        | (_, some ce) =>
            (db, [MgrAct.beginAct, MgrAct.commitAct], RunOut.commitErr ce)
        | (_, none) =>
            (⟨db.committed ++ tx1.pending⟩, [MgrAct.beginAct, MgrAct.commitAct], RunOut.ok)

/-- Savepoint names as generated by `fmt.Sprintf("sp_%d", id)`: the prefix
sp_ followed by the decimal representation of the counter value. -/
def spName (id : Nat) : String := "sp_" ++ Nat.repr id

/-- Outcome of the nested scope runner Tx.Transaction.  `orig e` is the
callback's error returned unchanged after a successful ROLLBACK TO
SAVEPOINT; `spRollbackFailed` is the composite
`fmt.Errorf("dbkit: savepoint rollback failed: ...")` carrying the original
error; `releaseErr` wraps a failed RELEASE SAVEPOINT. -/
inductive NestOut (E : Type)
  | ok
  | orig (e : E)
  | spRollbackFailed (e : E)
  | releaseErr
deriving DecidableEq, Repr

/-- Tx.Transaction of tx.go: nested transaction scopes via savepoints.
Draws a fresh id from the shared counter, issues `SAVEPOINT sp_<id>`, runs
the callback on the scope, then releases the savepoint on success or rolls
back to it on failure, returning the callback's original error. -/
def txTransaction {E : Type} (fn : TxState → TxState × Except E Unit)
    (tx : TxState) : TxState × NestOut E :=
  let id := tx.seq + 1
  let name := spName id
  let tx1 := execSavepoint { tx with seq := id } name
  match fn tx1 with
  | (tx2, Except.error e) =>
      match execRollbackTo tx2 name with
      | (tx3, true) => (tx3, NestOut.orig e)
      | (tx3, false) => (tx3, NestOut.spRollbackFailed e)
  | (tx2, Except.ok _) =>
      match execRelease tx2 name with
      | (tx3, true) => (tx3, NestOut.ok)
      | (tx3, false) => (tx3, NestOut.releaseErr)

/-- The nested-savepoint spec scenario as a transaction callback: write w1,
open a nested scope that writes w2 and fails, then write w3 in the still
open outer scope and return success. -/
def scenarioW1W2W3 (w1 w2 w3 : Nat) (tx : TxState) : TxState × FnOut Unit :=
  let t1 := execWrite tx w1
  let r := txTransaction (fun t => (execWrite t w2, Except.error ())) t1
  (execWrite r.1 w3, FnOut.ok)

/-! ### Decimal representation helpers (injectivity of savepoint names) -/

theorem toDigitsCore_ten (f : Nat) : ∀ (n : Nat) (l : List Char), 0 < n → n < f →
    Nat.toDigitsCore 10 f n l = ((Nat.digits 10 n).map Nat.digitChar).reverse ++ l := by
  induction f with
  | zero => intro n l hn hf; omega
  | succ f ih =>
    intro n l hn hf
    by_cases h10 : n / 10 = 0
    · have hlt : n < 10 := (Nat.div_eq_zero_iff (by norm_num)).mp h10
      simp only [Nat.toDigitsCore, h10, if_true]
      rw [Nat.digits_def' (by norm_num : (1:ℕ) < 10) hn, h10, Nat.digits_zero]
      simp
    · have hpos : 0 < n / 10 := Nat.pos_of_ne_zero h10
      have hlt : n / 10 < f :=
        lt_of_lt_of_le (Nat.div_lt_self hn (by norm_num)) (by omega)
      simp only [Nat.toDigitsCore, h10, if_false]
      rw [ih (n / 10) (Nat.digitChar (n % 10) :: l) hpos hlt]
      rw [Nat.digits_def' (by norm_num : (1:ℕ) < 10) hn]
      simp [List.append_assoc]

theorem digitChar_inj_lt : ∀ a < 10, ∀ b < 10, Nat.digitChar a = Nat.digitChar b → a = b := by
  decide

theorem map_digitChar_inj : ∀ (l1 l2 : List Nat), (∀ x ∈ l1, x < 10) → (∀ x ∈ l2, x < 10) →
    l1.map Nat.digitChar = l2.map Nat.digitChar → l1 = l2
  | [], [], _, _, _ => rfl
  | [], _ :: _, _, _, h => by simp at h
  | _ :: _, [], _, _, h => by simp at h
  | a :: l1, b :: l2, h1, h2, h => by
    simp only [List.map_cons, List.cons.injEq] at h
    have hab : a = b :=
      digitChar_inj_lt a (h1 a (by simp)) b (h2 b (by simp)) h.1
    subst hab
    rw [map_digitChar_inj l1 l2 (fun x hx => h1 x (by simp [hx]))
      (fun x hx => h2 x (by simp [hx])) h.2]

theorem natRepr_inj_pos {i j : Nat} (hi : 0 < i) (hj : 0 < j)
    (h : Nat.repr i = Nat.repr j) : i = j := by
  have h2 : Nat.toDigits 10 i = Nat.toDigits 10 j := by
    simp only [Nat.repr] at h
    exact List.asString_inj.mp h
  rw [Nat.toDigits, Nat.toDigits] at h2
  rw [toDigitsCore_ten (i + 1) i [] hi (by omega),
      toDigitsCore_ten (j + 1) j [] hj (by omega)] at h2
  simp only [List.append_nil, List.reverse_inj] at h2
  have hd := map_digitChar_inj _ _
    (fun x hx => Nat.digits_lt_base (by norm_num) hx)
    (fun x hx => Nat.digits_lt_base (by norm_num) hx) h2
  exact Nat.digits.injective 10 hd

theorem spName_inj {i j : Nat} (hi : 0 < i) (hj : 0 < j) (hne : i ≠ j) :
    spName i ≠ spName j := by
  intro h
  apply hne
  apply natRepr_inj_pos hi hj
  have hdata := congrArg String.data h
  simp only [spName, String.data_append] at hdata
  exact String.ext (List.append_cancel_left hdata)

/-! ### Small projection lemmas for the scope state -/

theorem execSavepoint_seq (t : TxState) (n : String) : (execSavepoint t n).seq = t.seq := rfl

theorem execRollbackTo_seq (t : TxState) (n : String) :
    (execRollbackTo t n).1.seq = t.seq := by
  unfold execRollbackTo
  rcases h : findSave t.saves n with _ | ⟨stack, m⟩ <;> simp [h]

theorem execRelease_seq (t : TxState) (n : String) :
    (execRelease t n).1.seq = t.seq := by
  unfold execRelease
  rcases h : findSave t.saves n with _ | ⟨stack, m⟩ <;> simp [h]

/-! ### Claim theorems for the transaction manager -/

/-- C7: Tx.Rollback on an already-committed or already-rolled-back scope
returns success rather than an error; in particular, after a first
successful rollback a second rollback also returns success. -/
theorem rollback_idempotent :
    (txRollback PhysStatus.opened false = (PhysStatus.rolledBack, none)) ∧
    (∀ fail : Bool, txRollback PhysStatus.rolledBack fail = (PhysStatus.rolledBack, none)) ∧
    (∀ fail : Bool, txRollback PhysStatus.committed fail = (PhysStatus.committed, none)) := by
  refine ⟨by decide, ?_, ?_⟩ <;> intro fail <;> cases fail <;> decide

/-- C5: when the transaction callback panics, rollback is attempted before
the panic propagates, and the rollback's result (even a failure) is
suppressed: the original panic payload is re-raised unchanged, whatever the
rollback fault injector says. -/
theorem panic_rollback_then_rethrow (E : Type) (env : TxEnv) (db : DB)
    (fn : TxState → TxState × FnOut E) (tx1 : TxState) (p : Nat)
    (hbegin : env.beginFails = false)
    (hfn : fn newTxState = (tx1, FnOut.panik p)) :
    TransactionWithOptions env db fn =
      (db, [MgrAct.beginAct, MgrAct.rollbackAct], RunOut.panicked p) := by
  simp [TransactionWithOptions, hbegin, hfn]

theorem panic_rollback_then_rethrow_witness :
    TransactionWithOptions ⟨false, true, false⟩ ⟨[5]⟩
        (fun tx => (tx, (FnOut.panik 7 : FnOut Unit))) =
      (⟨[5]⟩, [MgrAct.beginAct, MgrAct.rollbackAct], RunOut.panicked 7) :=
  panic_rollback_then_rethrow Unit ⟨false, true, false⟩ ⟨[5]⟩
    (fun tx => (tx, (FnOut.panik 7 : FnOut Unit))) newTxState 7 rfl rfl

/-- C6: when the callback returns an error, the transaction is rolled back
and the callback's error is returned unchanged; if the rollback itself also
fails, the result is the composite error carrying both the rollback failure
and the original error. -/
theorem fn_error_rollback_or_composite (E : Type) (env : TxEnv) (db : DB)
    (fn : TxState → TxState × FnOut E) (tx1 : TxState) (e : E)
    (hbegin : env.beginFails = false)
    (hfn : fn newTxState = (tx1, FnOut.err e)) :
    (env.rollbackFails = false →
      TransactionWithOptions env db fn =
        (db, [MgrAct.beginAct, MgrAct.rollbackAct], RunOut.fnErr e)) ∧
    (env.rollbackFails = true →
      TransactionWithOptions env db fn =
        (db, [MgrAct.beginAct, MgrAct.rollbackAct],
          RunOut.rollbackFailed (wrapError SqlErr.connErr "Rollback") e)) := by
  constructor <;> intro hrb <;>
    simp [TransactionWithOptions, hbegin, hfn, hrb, txRollback, sqlRollback]

theorem fn_error_rollback_or_composite_witness :
    TransactionWithOptions ⟨false, false, false⟩ ⟨[]⟩
        (fun tx => (tx, (FnOut.err 3 : FnOut Nat))) =
      (⟨[]⟩, [MgrAct.beginAct, MgrAct.rollbackAct], RunOut.fnErr 3) ∧
    TransactionWithOptions ⟨false, true, false⟩ ⟨[]⟩
        (fun tx => (tx, (FnOut.err 3 : FnOut Nat))) =
      (⟨[]⟩, [MgrAct.beginAct, MgrAct.rollbackAct],
        RunOut.rollbackFailed (wrapError SqlErr.connErr "Rollback") 3) :=
  ⟨(fn_error_rollback_or_composite Nat ⟨false, false, false⟩ ⟨[]⟩
      (fun tx => (tx, (FnOut.err 3 : FnOut Nat))) newTxState 3 rfl rfl).1 rfl,
   (fn_error_rollback_or_composite Nat ⟨false, true, false⟩ ⟨[]⟩
      (fun tx => (tx, (FnOut.err 3 : FnOut Nat))) newTxState 3 rfl rfl).2 rfl⟩

/-- C1: nested scopes opened with Tx.Transaction: on callback success the
engine issues RELEASE SAVEPOINT for the scope's savepoint; on callback
failure it issues ROLLBACK TO SAVEPOINT and returns the callback's original
error, undoing exactly the writes made after the savepoint while the
parent's earlier writes stay pending; the savepoint counter is shared
through the scope state and strictly increases, and distinct counter values
give distinct sp_<n> names; in the W1/W2/W3 scenario an outer commit
persists W1 and W3 but not W2. -/
theorem nested_scope_savepoint_semantics :
    (∀ (E : Type) (fn : TxState → TxState × Except E Unit) (tx tx2 : TxState),
      fn (execSavepoint { tx with seq := tx.seq + 1 } (spName (tx.seq + 1))) =
          (tx2, Except.ok ()) →
      findSave tx2.saves (spName (tx.seq + 1)) ≠ none →
      (txTransaction fn tx).2 = NestOut.ok ∧
      (txTransaction fn tx).1.log =
        tx2.log ++ ["RELEASE SAVEPOINT " ++ spName (tx.seq + 1)]) ∧
    (∀ (E : Type) (fn : TxState → TxState × Except E Unit) (tx tx2 : TxState)
        (e : E) (ws : List Nat),
      fn (execSavepoint { tx with seq := tx.seq + 1 } (spName (tx.seq + 1))) =
          (tx2, Except.error e) →
      tx2.saves = (execSavepoint { tx with seq := tx.seq + 1 } (spName (tx.seq + 1))).saves →
      tx2.pending = tx.pending ++ ws →
      (txTransaction fn tx).2 = NestOut.orig e ∧
      (txTransaction fn tx).1.pending = tx.pending ∧
      (txTransaction fn tx).1.log =
        tx2.log ++ ["ROLLBACK TO SAVEPOINT " ++ spName (tx.seq + 1)]) ∧
    (∀ (E : Type) (fn : TxState → TxState × Except E Unit) (tx : TxState),
      (∀ t, t.seq ≤ (fn t).1.seq) →
      tx.seq < (txTransaction fn tx).1.seq) ∧
    (∀ i j : Nat, 0 < i → 0 < j → i ≠ j → spName i ≠ spName j) ∧
    (∀ (db : DB) (w1 w2 w3 : Nat),
      TransactionWithOptions ⟨false, false, false⟩ db (scenarioW1W2W3 w1 w2 w3) =
        (⟨db.committed ++ [w1, w3]⟩, [MgrAct.beginAct, MgrAct.commitAct], RunOut.ok)) := by
  refine ⟨?_, ?_, ?_, ?_, ?_⟩
  · intro E fn tx tx2 hfn hfind
    simp only [txTransaction, hfn]
    rcases hf : findSave tx2.saves (spName (tx.seq + 1)) with _ | ⟨stack, m⟩
    · exact absurd hf hfind
    · simp [execRelease, hf]
  · intro E fn tx tx2 e ws hfn hsaves hpend
    simp only [txTransaction, hfn]
    have hfound : findSave tx2.saves (spName (tx.seq + 1)) =
        some ((spName (tx.seq + 1), tx.pending.length) :: tx.saves, tx.pending.length) := by
      rw [hsaves]
      simp [execSavepoint, findSave]
    simp [execRollbackTo, hfound, hpend, List.take_left]
  · intro E fn tx hmono
    have h1 := hmono (execSavepoint { tx with seq := tx.seq + 1 } (spName (tx.seq + 1)))
    simp only [execSavepoint_seq] at h1
    simp only [txTransaction]
    split
    next tx2 e hfn =>
      rw [hfn] at h1
      simp only at h1
      split
      next tx3 heq =>
        have h := execRollbackTo_seq tx2 (spName (tx.seq + 1))
        rw [heq] at h
        simp only at h ⊢
        omega
      next tx3 heq =>
        have h := execRollbackTo_seq tx2 (spName (tx.seq + 1))
        rw [heq] at h
        simp only at h ⊢
        omega
    next tx2 a hfn =>
      rw [hfn] at h1
      simp only at h1
      split
      next tx3 heq =>
        have h := execRelease_seq tx2 (spName (tx.seq + 1))
        rw [heq] at h
        simp only at h ⊢
        omega
      next tx3 heq =>
        have h := execRelease_seq tx2 (spName (tx.seq + 1))
        rw [heq] at h
        simp only at h ⊢
        omega
  · intro i j hi hj hne
    exact spName_inj hi hj hne
  · intro db w1 w2 w3
    simp [TransactionWithOptions, scenarioW1W2W3, txTransaction, execSavepoint,
      execRollbackTo, execWrite, findSave, newTxState, txCommit, sqlCommit]

theorem nested_scope_savepoint_semantics_witness :
    (txTransaction (fun t => (execWrite t 2, (Except.error 5 : Except Nat Unit)))
        (execWrite newTxState 1)).2 = NestOut.orig 5 ∧
    (txTransaction (fun t => (execWrite t 2, (Except.error 5 : Except Nat Unit)))
        (execWrite newTxState 1)).1.pending = (execWrite newTxState 1).pending :=
  ⟨(nested_scope_savepoint_semantics.2.1 Nat
      (fun t => (execWrite t 2, (Except.error 5 : Except Nat Unit)))
      (execWrite newTxState 1)
      (execWrite (execSavepoint { execWrite newTxState 1 with seq := 1 } (spName 1)) 2)
      5 [2] rfl rfl rfl).1,
   (nested_scope_savepoint_semantics.2.1 Nat
      (fun t => (execWrite t 2, (Except.error 5 : Except Nat Unit)))
      (execWrite newTxState 1)
      (execWrite (execSavepoint { execWrite newTxState 1 with seq := 1 } (spName 1)) 2)
      5 [2] rfl rfl rfl).2.1⟩

/-! ### Migration engine model (migrations.go) -/

/-- Migration mirrors the author-supplied migration struct. -/
structure Migration where
  ID : String
  Description : String
  SQL : String
deriving DecidableEq, Repr

/-- AppliedMigration as recorded in the result; the wall-clock fields
AppliedAt and Duration are not modelled. -/
structure AppliedMigration where
  ID : String
  Description : String
  Checksum : String
deriving DecidableEq, Repr

/-- MigrationResult mirrors the result struct (TotalTime not modelled). -/
structure MigrationResult where
  Applied : List AppliedMigration
  Skipped : List String
deriving DecidableEq, Repr

/-- A row of the _dbkit_migrations ledger table (applied_at and duration_ms
are not modelled). -/
structure LedgerEntry where
  id : String
  description : String
  checksum : String
deriving DecidableEq, Repr

/-- The database state seen by the migration engine: whether the ledger
table exists, the user schema as the ordered list of successfully executed
migration SQL texts, and the ledger rows in insertion order. -/
structure MigDB where
  tableExists : Bool
  schema : List String
  ledger : List LedgerEntry
deriving DecidableEq, Repr

/-- Executing the CREATE TABLE IF NOT EXISTS statement for the ledger. -/
def ensureMigrationsTable (db : MigDB) : MigDB := { db with tableExists := true }

/-- getAppliedMigrations: the id to checksum map read from the ledger. -/
def ledgerLookup (l : List LedgerEntry) (id : String) : Option String :=
  (l.find? (fun r => r.id == id)).map (fun r => r.checksum)

/-- Executing a migration's SQL against the schema; the environment `ok`
decides which SQL texts execute successfully. -/
def execSQL (ok : String → Bool) (db : MigDB) (sql : String) : Option MigDB :=
  if ok sql then some { db with schema := db.schema ++ [sql] } else none

/-- INSERT INTO _dbkit_migrations: fails on a duplicate primary key. -/
def insertLedger (db : MigDB) (e : LedgerEntry) : Option MigDB :=
  if (db.ledger.find? (fun r => r.id == e.id)).isSome then none
  else some { db with ledger := db.ledger ++ [e] }

/-- db.Transaction as used by applyMigration: runs `fn` inside one physical
transaction; on success the changes commit, on error the transaction rolls
back, discarding the state changes made by `fn`. -/
def migTransaction (db : MigDB) (fn : MigDB → MigDB × Option Error) :
    MigDB × Option Error :=
  match fn db with
  | (db', none) => (db', none)
  | (_, some e) => (db, some e)

/-- truncateSQL of migrations.go (character counts stand in for Go's byte
counts). -/
def truncateSQL (sql : String) (maxLen : Nat) : String :=
  if sql.length ≤ maxLen then sql else sql.take maxLen ++ "..."

/-- applyMigration: executes the migration SQL and records the ledger row
inside one physical transaction.  The record-insert failure is the
PostgreSQL unique-violation wrapped by wrapError via wrapPgError. -/
def applyMigration (ok : String → Bool) (db : MigDB) (m : Migration)
    (checksum : String) : MigDB × Option Error :=
  migTransaction db (fun d =>
    match execSQL ok d m.SQL with
    | none =>
        (d, some { Code := CodeUnknown,
                   Message := "migration " ++ m.ID ++ " failed",
                   Op := "Migrate.Apply",
                   Query := truncateSQL m.SQL 200 })
    | some d1 =>
        match insertLedger d1 ⟨m.ID, m.Description, checksum⟩ with
        | none =>
            (d1, some (wrapPgError
              ⟨"23505", "", "_dbkit_migrations", "", "_dbkit_migrations_pkey", "", ""⟩
              "Migrate.Record"))
        | some d2 => (d2, none))

/-- The drift error of Migrate, with the exact message format of the source:
migration %s has changed (checksum mismatch: expected %s, got %s). -/
def driftError (id existing got : String) : Error :=
  { Code := CodeUnknown,
    Message := "migration " ++ id ++ " has changed (checksum mismatch: expected "
      ++ existing ++ ", got " ++ got ++ ")",
    Op := "Migrate" }

/-- The per-migration loop of Migrate over the pre-read applied map. -/
def migrateLoop (ok : String → Bool) (digest : String → String)
    (applied : String → Option String) (db : MigDB) (acc : MigrationResult) :
    List Migration → MigDB × Except Error MigrationResult
  | [] => (db, Except.ok acc)
  | m :: rest =>
    let checksum := digest m.SQL
    match applied m.ID with
    | some existing =>
        if existing ≠ checksum then
          (db, Except.error (driftError m.ID existing checksum))
        else
          migrateLoop ok digest applied db
            { acc with Skipped := acc.Skipped ++ [m.ID] } rest
    | none =>
        match applyMigration ok db m checksum with
        | (db', none) =>
            migrateLoop ok digest applied db'
              { acc with Applied := acc.Applied ++ [⟨m.ID, m.Description, checksum⟩] } rest
        | (db', some e) => (db', Except.error e)

/-- Migrate of migrations.go: ensures the ledger table exists, reads the
applied map once, then processes the migrations in input order.  `digest`
abstracts checksumSQL (the SHA-256 lowercase-hex digest): no claim depends
on the digest's value, only on it being a function of the SQL text. -/
def Migrate (ok : String → Bool) (digest : String → String) (db : MigDB)
    (migrations : List Migration) : MigDB × Except Error MigrationResult :=
  let db := ensureMigrationsTable db
  migrateLoop ok digest (ledgerLookup db.ledger) db ⟨[], []⟩ migrations

/-- MigrationStatusEntry mirrors the status row struct. -/
structure MigrationStatusEntry where
  ID : String
  Description : String
  Checksum : String
  Applied : Bool
  ChecksumMatch : Bool
deriving DecidableEq, Repr

/-- MigrationStatus of migrations.go: ensures the ledger table exists, reads
the applied map, and builds the report for the input migrations; those are
its only interactions with the database state. -/
def MigrationStatus (digest : String → String) (db : MigDB)
    (migrations : List Migration) : MigDB × List MigrationStatusEntry :=
  let db := ensureMigrationsTable db
  let applied := ledgerLookup db.ledger
  (db, migrations.map (fun m =>
    let checksum := digest m.SQL
    match applied m.ID with
    | some appliedChecksum =>
        ⟨m.ID, m.Description, checksum, true, appliedChecksum == checksum⟩
    | none => ⟨m.ID, m.Description, checksum, false, false⟩))

/-! ### Migration engine lemmas -/

theorem ledgerLookup_append_left {l1 l2 : List LedgerEntry} {id c : String}
    (h : ledgerLookup l1 id = some c) : ledgerLookup (l1 ++ l2) id = some c := by
  unfold ledgerLookup at h ⊢
  rcases hf : l1.find? (fun r => r.id == id) with _ | r
  · rw [hf] at h
    simp at h
  · rw [hf] at h
    rw [List.find?_append, hf]
    simpa using h

theorem ledgerLookup_append_right {l1 l2 : List LedgerEntry} {id : String}
    (h : ledgerLookup l1 id = none) :
    ledgerLookup (l1 ++ l2) id = ledgerLookup l2 id := by
  unfold ledgerLookup at h ⊢
  rcases hf : l1.find? (fun r => r.id == id) with _ | r
  · rw [List.find?_append, hf]
    simp
  · rw [hf] at h
    simp at h

theorem applyMigration_success (ok : String → Bool) (db : MigDB) (m : Migration)
    (c : String) (hok : ok m.SQL = true)
    (hf : db.ledger.find? (fun r => r.id == m.ID) = none) :
    applyMigration ok db m c =
      ({ tableExists := db.tableExists, schema := db.schema ++ [m.SQL],
         ledger := db.ledger ++ [⟨m.ID, m.Description, c⟩] }, none) := by
  unfold applyMigration migTransaction execSQL insertLedger
  simp [hok, hf]

theorem applyMigration_exec_fail (ok : String → Bool) (db : MigDB) (m : Migration)
    (c : String) (hok : ok m.SQL = false) :
    applyMigration ok db m c =
      (db, some { Code := CodeUnknown,
                  Message := "migration " ++ m.ID ++ " failed",
                  Op := "Migrate.Apply",
                  Query := truncateSQL m.SQL 200 }) := by
  unfold applyMigration migTransaction execSQL
  simp [hok]

theorem applyMigration_cases (ok : String → Bool) (db : MigDB) (m : Migration)
    (c : String) :
    (ok m.SQL = true ∧ db.ledger.find? (fun r => r.id == m.ID) = none ∧
      applyMigration ok db m c =
        ({ tableExists := db.tableExists, schema := db.schema ++ [m.SQL],
           ledger := db.ledger ++ [⟨m.ID, m.Description, c⟩] }, none)) ∨
    ((applyMigration ok db m c).1 = db ∧ (applyMigration ok db m c).2.isSome) := by
  by_cases hok : ok m.SQL
  · rcases hf : db.ledger.find? (fun r => r.id == m.ID) with _ | r
    · exact Or.inl ⟨hok, hf, applyMigration_success ok db m c hok hf⟩
    · right
      unfold applyMigration migTransaction execSQL insertLedger
      simp [hok, hf]
  · right
    rw [applyMigration_exec_fail ok db m c (by simpa using hok)]
    simp

theorem migrateLoop_ledger_mono (ok : String → Bool) (digest : String → String)
    (applied : String → Option String) :
    ∀ (ms : List Migration) (db : MigDB) (acc : MigrationResult) (id c : String),
      ledgerLookup db.ledger id = some c →
      ledgerLookup (migrateLoop ok digest applied db acc ms).1.ledger id = some c := by
  intro ms
  induction ms with
  | nil =>
    intro db acc id c h
    simpa [migrateLoop] using h
  | cons m rest ih =>
    intro db acc id c h
    simp only [migrateLoop]
    cases hap : applied m.ID with
    | some existing =>
      by_cases hne : existing ≠ digest m.SQL
      · simp only [if_pos hne]
        simpa using h
      · simp only [if_neg hne]
        exact ih db _ id c h
    | none =>
      rcases applyMigration_cases ok db m (digest m.SQL) with ⟨hok, hf, happ⟩ | ⟨hst, hsome⟩
      · rw [happ]
        exact ih _ _ id c (ledgerLookup_append_left h)
      · rcases h2 : applyMigration ok db m (digest m.SQL) with ⟨dbx, r⟩
        rw [h2] at hst hsome
        cases r with
        | none => simp at hsome
        | some e =>
          simp only at hst
          simpa [hst] using h

theorem migrateLoop_ok_spec (ok : String → Bool) (digest : String → String)
    (applied : String → Option String) :
    ∀ (ms : List Migration) (db : MigDB) (acc : MigrationResult) (db' : MigDB)
      (res : MigrationResult),
      migrateLoop ok digest applied db acc ms = (db', Except.ok res) →
      res.Applied = acc.Applied ++
          (ms.filter (fun m => (applied m.ID).isNone)).map
            (fun m => (⟨m.ID, m.Description, digest m.SQL⟩ : AppliedMigration)) ∧
      res.Skipped = acc.Skipped ++
          (ms.filter (fun m => (applied m.ID).isSome)).map (fun m => m.ID) ∧
      db'.schema = db.schema ++
          (ms.filter (fun m => (applied m.ID).isNone)).map (fun m => m.SQL) ∧
      db'.ledger = db.ledger ++
          (ms.filter (fun m => (applied m.ID).isNone)).map
            (fun m => (⟨m.ID, m.Description, digest m.SQL⟩ : LedgerEntry)) ∧
      db'.tableExists = db.tableExists ∧
      (∀ m ∈ ms, ∀ ex, applied m.ID = some ex → ex = digest m.SQL) := by
  intro ms
  induction ms with
  | nil =>
    intro db acc db' res h
    simp only [migrateLoop, Prod.mk.injEq, Except.ok.injEq] at h
    obtain ⟨rfl, rfl⟩ := h
    simp
  | cons m rest ih =>
    intro db acc db' res h
    simp only [migrateLoop] at h
    cases hap : applied m.ID with
    | some existing =>
      simp only [hap] at h
      by_cases hne : existing ≠ digest m.SQL
      · rw [if_pos hne] at h
        exact absurd h (by simp)
      · rw [if_neg hne] at h
        push_neg at hne
        obtain ⟨hA, hS, hsch, hled, htab, hdr⟩ := ih db _ db' res h
        refine ⟨?_, ?_, ?_, ?_, htab, ?_⟩
        · rw [hA]
          simp [List.filter_cons, hap]
        · rw [hS]
          simp [List.filter_cons, hap, List.append_assoc]
        · rw [hsch]
          simp [List.filter_cons, hap]
        · rw [hled]
          simp [List.filter_cons, hap]
        · intro m' hm' ex hex
          rcases List.mem_cons.mp hm' with rfl | hmem
          · rw [hap] at hex
            injection hex with hx
            rw [← hx]
            exact hne
          · exact hdr m' hmem ex hex
    | none =>
      simp only [hap] at h
      rcases applyMigration_cases ok db m (digest m.SQL) with ⟨hok, hf, happ⟩ | ⟨hst, hsome⟩
      · simp only [happ] at h
        obtain ⟨hA, hS, hsch, hled, htab, hdr⟩ := ih _ _ db' res h
        refine ⟨?_, ?_, ?_, ?_, ?_, ?_⟩
        · rw [hA]
          simp [List.filter_cons, hap, List.append_assoc]
        · rw [hS]
          simp [List.filter_cons, hap]
        · rw [hsch]
          simp [List.filter_cons, hap, List.append_assoc]
        · rw [hled]
          simp [List.filter_cons, hap, List.append_assoc]
        · rw [htab]
        · intro m' hm' ex hex
          rcases List.mem_cons.mp hm' with rfl | hmem
          · rw [hap] at hex
            exact absurd hex (by simp)
          · exact hdr m' hmem ex hex
      · rcases h2 : applyMigration ok db m (digest m.SQL) with ⟨dbx, r⟩
        rw [h2] at h hsome
        cases r with
        | none => simp at hsome
        | some e => exact absurd h (by simp)

theorem migrateLoop_ok_lookup (ok : String → Bool) (digest : String → String) :
    ∀ (ms : List Migration) (applied : String → Option String) (db : MigDB)
      (acc : MigrationResult) (db' : MigDB) (res : MigrationResult),
      (∀ id c, applied id = some c → ledgerLookup db.ledger id = some c) →
      migrateLoop ok digest applied db acc ms = (db', Except.ok res) →
      ∀ m ∈ ms, ledgerLookup db'.ledger m.ID = some (digest m.SQL) := by
  intro ms
  induction ms with
  | nil =>
    intro applied db acc db' res hmap h m hm
    simp at hm
  | cons m0 rest ih =>
    intro applied db acc db' res hmap h m hm
    simp only [migrateLoop] at h
    cases hap : applied m0.ID with
    | some existing =>
      simp only [hap] at h
      by_cases hne : existing ≠ digest m0.SQL
      · rw [if_pos hne] at h
        exact absurd h (by simp)
      · rw [if_neg hne] at h
        push_neg at hne
        rcases List.mem_cons.mp hm with rfl | hmem
        · have hl : ledgerLookup db.ledger m.ID = some existing := hmap _ _ hap
          have hmono := migrateLoop_ledger_mono ok digest applied rest db
            { acc with Skipped := acc.Skipped ++ [m.ID] } m.ID existing hl
          rw [h] at hmono
          simp only at hmono
          rw [hmono, hne]
        · exact ih applied db _ db' res hmap h m hmem
    | none =>
      simp only [hap] at h
      rcases applyMigration_cases ok db m0 (digest m0.SQL) with ⟨hok, hf, happ⟩ | ⟨hst, hsome⟩
      · simp only [happ] at h
        have hmap' : ∀ id c, applied id = some c →
            ledgerLookup (db.ledger ++
              [(⟨m0.ID, m0.Description, digest m0.SQL⟩ : LedgerEntry)]) id = some c :=
          fun id c hc => ledgerLookup_append_left (hmap id c hc)
        rcases List.mem_cons.mp hm with rfl | hmem
        · have hnone : ledgerLookup db.ledger m.ID = none := by
            unfold ledgerLookup
            rw [hf]
            rfl
          have hnew : ledgerLookup (db.ledger ++
              [(⟨m.ID, m.Description, digest m.SQL⟩ : LedgerEntry)]) m.ID =
              some (digest m.SQL) := by
            rw [ledgerLookup_append_right hnone]
            unfold ledgerLookup
            simp [List.find?]
          have hmono := migrateLoop_ledger_mono ok digest applied rest
            ({ tableExists := db.tableExists, schema := db.schema ++ [m.SQL],
               ledger := db.ledger ++ [⟨m.ID, m.Description, digest m.SQL⟩] } : MigDB)
            { acc with Applied := acc.Applied ++ [⟨m.ID, m.Description, digest m.SQL⟩] }
            m.ID (digest m.SQL) hnew
          rw [h] at hmono
          simpa using hmono
        · exact ih applied _ _ db' res hmap' h m hmem
      · rcases h2 : applyMigration ok db m0 (digest m0.SQL) with ⟨dbx, r⟩
        rw [h2] at h hsome
        cases r with
        | none => simp at hsome
        | some e => exact absurd h (by simp)

theorem migrateLoop_all_skipped (ok : String → Bool) (digest : String → String)
    (applied : String → Option String) (db : MigDB) :
    ∀ (ms : List Migration) (accA : List AppliedMigration) (accS : List String),
      (∀ m ∈ ms, applied m.ID = some (digest m.SQL)) →
      migrateLoop ok digest applied db ⟨accA, accS⟩ ms =
        (db, Except.ok ⟨accA, accS ++ ms.map (fun m => m.ID)⟩) := by
  intro ms
  induction ms with
  | nil =>
    intro accA accS hall
    simp [migrateLoop]
  | cons m rest ih =>
    intro accA accS hall
    have hm := hall m (by simp)
    simp only [migrateLoop, hm]
    rw [if_neg (by simp)]
    have hrec := ih accA (accS ++ [m.ID]) (fun m' hm' => hall m' (by simp [hm']))
    rw [hrec]
    simp

/-! ### Claim theorems for the migration engine -/

/-- C9: MigrationStatus is a read-only report: it never creates, modifies
or deletes a ledger entry and leaves the schema untouched. -/
theorem migration_status_readonly (digest : String → String) (db : MigDB)
    (ms : List Migration) :
    (MigrationStatus digest db ms).1.ledger = db.ledger ∧
    (MigrationStatus digest db ms).1.schema = db.schema := by
  exact ⟨rfl, rfl⟩

/-- C3: a checksum mismatch for an already-applied migration aborts the run
immediately: the state is returned unchanged from that point (so no later
migration is attempted), the error carries the migration id and both
checksums in its message, and no run of Migrate ever alters an existing
ledger entry. -/
theorem migrate_drift_aborts :
    (∀ (ok : String → Bool) (digest : String → String)
        (applied : String → Option String) (db : MigDB) (acc : MigrationResult)
        (m : Migration) (rest : List Migration) (existing : String),
      applied m.ID = some existing → existing ≠ digest m.SQL →
      migrateLoop ok digest applied db acc (m :: rest) =
        (db, Except.error (driftError m.ID existing (digest m.SQL)))) ∧
    (∀ id existing got : String,
      (driftError id existing got).Message =
        "migration " ++ id ++ " has changed (checksum mismatch: expected "
          ++ existing ++ ", got " ++ got ++ ")" ∧
      (driftError id existing got).Op = "Migrate") ∧
    (∀ (ok : String → Bool) (digest : String → String) (db : MigDB)
        (ms : List Migration) (id c : String),
      ledgerLookup db.ledger id = some c →
      ledgerLookup (Migrate ok digest db ms).1.ledger id = some c) := by
  refine ⟨?_, ?_, ?_⟩
  · intro ok digest applied db acc m rest existing hap hne
    simp only [migrateLoop, hap, if_pos hne]
  · intro id existing got
    exact ⟨rfl, rfl⟩
  · intro ok digest db ms id c h
    simp only [Migrate]
    exact migrateLoop_ledger_mono ok digest (ledgerLookup (ensureMigrationsTable db).ledger)
      ms (ensureMigrationsTable db) ⟨[], []⟩ id c h

theorem migrate_drift_aborts_witness :
    migrateLoop (fun _ => true) (fun s => s) (fun i => if i = "001" then some "A" else none)
        ⟨true, [], [⟨"001", "", "A"⟩]⟩ ⟨[], []⟩ [⟨"001", "", "B"⟩, ⟨"002", "", "C"⟩] =
      (⟨true, [], [⟨"001", "", "A"⟩]⟩, Except.error (driftError "001" "A" "B")) ∧
    ledgerLookup (Migrate (fun _ => true) (fun s => s)
        ⟨true, [], [⟨"001", "", "A"⟩]⟩ [⟨"001", "", "B"⟩]).1.ledger "001" = some "A" :=
  ⟨migrate_drift_aborts.1 (fun _ => true) (fun s => s)
      (fun i => if i = "001" then some "A" else none)
      ⟨true, [], [⟨"001", "", "A"⟩]⟩ ⟨[], []⟩ ⟨"001", "", "B"⟩ [⟨"002", "", "C"⟩] "A"
      rfl (by decide),
   migrate_drift_aborts.2.2 (fun _ => true) (fun s => s)
      ⟨true, [], [⟨"001", "", "A"⟩]⟩ [⟨"001", "", "B"⟩] "001" "A" (by decide)⟩

/-- C2: per-item atomicity and failure containment: a failing applyMigration
rolls the item's transaction back, leaving the state exactly as before the
item; and for a list [M1 valid, M2 invalid, M3 valid] over ids absent from
the ledger, the failing run commits M1's schema effect and ledger entry,
aborts at M2 with the execution error, and never attempts M3. -/
theorem migrate_partial_failure :
    (∀ (ok : String → Bool) (db : MigDB) (m : Migration) (c : String),
      (applyMigration ok db m c).2.isSome → (applyMigration ok db m c).1 = db) ∧
    (∀ (ok : String → Bool) (digest : String → String) (db : MigDB)
        (m1 m2 m3 : Migration),
      ok m1.SQL = true → ok m2.SQL = false →
      db.ledger.find? (fun r => r.id == m1.ID) = none →
      ledgerLookup db.ledger m2.ID = none →
      Migrate ok digest db [m1, m2, m3] =
        ({ tableExists := true, schema := db.schema ++ [m1.SQL],
           ledger := db.ledger ++ [⟨m1.ID, m1.Description, digest m1.SQL⟩] },
         Except.error { Code := CodeUnknown,
                        Message := "migration " ++ m2.ID ++ " failed",
                        Op := "Migrate.Apply",
                        Query := truncateSQL m2.SQL 200 })) := by
  constructor
  · intro ok db m c hsome
    rcases applyMigration_cases ok db m c with ⟨_, _, happ⟩ | ⟨hst, _⟩
    · rw [happ] at hsome
      simp at hsome
    · exact hst
  · intro ok digest db m1 m2 m3 hok1 hok2 hfind1 hlk2
    have hed : ensureMigrationsTable db = ⟨true, db.schema, db.ledger⟩ := rfl
    have hlk1 : ledgerLookup db.ledger m1.ID = none := by
      unfold ledgerLookup
      rw [hfind1]
      rfl
    simp only [Migrate, hed]
    simp only [migrateLoop]
    simp only [hlk1, hlk2]
    rw [applyMigration_success ok ⟨true, db.schema, db.ledger⟩ m1 (digest m1.SQL) hok1 hfind1]
    simp only []
    rw [applyMigration_exec_fail ok
      ⟨true, db.schema ++ [m1.SQL],
       db.ledger ++ [(⟨m1.ID, m1.Description, digest m1.SQL⟩ : LedgerEntry)]⟩
      m2 (digest m2.SQL) hok2]

theorem migrate_partial_failure_witness :
    Migrate (fun s => !(s == "BAD")) (fun s => s) ⟨false, [], []⟩
        [⟨"001", "m1", "A"⟩, ⟨"002", "m2", "BAD"⟩, ⟨"003", "m3", "C"⟩] =
      (⟨true, ["A"], [⟨"001", "m1", "A"⟩]⟩,
       Except.error { Code := CodeUnknown,
                      Message := "migration " ++ "002" ++ " failed",
                      Op := "Migrate.Apply",
                      Query := truncateSQL "BAD" 200 }) :=
  migrate_partial_failure.2 (fun s => !(s == "BAD")) (fun s => s) ⟨false, [], []⟩
    ⟨"001", "m1", "A"⟩ ⟨"002", "m2", "BAD"⟩ ⟨"003", "m3", "C"⟩ rfl rfl rfl rfl

/-- C4: re-running Migrate with a list whose first run fully succeeded
yields applied = [] and skipped = all input ids, and returns the database
state entirely unchanged: no migration SQL is executed. -/
theorem migrate_idempotent (ok : String → Bool) (digest : String → String)
    (db db1 : MigDB) (res1 : MigrationResult) (ms : List Migration)
    (h1 : Migrate ok digest db ms = (db1, Except.ok res1)) :
    Migrate ok digest db1 ms =
      (db1, Except.ok ⟨[], ms.map (fun m => m.ID)⟩) := by
  simp only [Migrate] at h1
  obtain ⟨-, -, -, -, htab, -⟩ :=
    migrateLoop_ok_spec ok digest (ledgerLookup (ensureMigrationsTable db).ledger)
      ms (ensureMigrationsTable db) ⟨[], []⟩ db1 res1 h1
  have hlook := migrateLoop_ok_lookup ok digest ms
    (ledgerLookup (ensureMigrationsTable db).ledger) (ensureMigrationsTable db)
    ⟨[], []⟩ db1 res1 (fun id c hc => hc) h1
  have hens : ensureMigrationsTable db1 = db1 := by
    have ht : db1.tableExists = true := by
      rw [htab]
      rfl
    cases db1 with
    | mk t s l =>
      simp only at ht
      simp [ensureMigrationsTable, ht]
  simp only [Migrate, hens]
  have := migrateLoop_all_skipped ok digest (ledgerLookup db1.ledger) db1 ms [] []
    (fun m hm => hlook m hm)
  simpa using this

theorem migrate_idempotent_witness :
    Migrate (fun _ => true) (fun s => s) ⟨true, ["A"], [⟨"001", "m1", "A"⟩]⟩
        [⟨"001", "m1", "A"⟩] =
      (⟨true, ["A"], [⟨"001", "m1", "A"⟩]⟩, Except.ok ⟨[], ["001"]⟩) :=
  migrate_idempotent (fun _ => true) (fun s => s) ⟨false, [], []⟩
    ⟨true, ["A"], [⟨"001", "m1", "A"⟩]⟩ ⟨[⟨"001", "m1", "A"⟩], []⟩
    [⟨"001", "m1", "A"⟩] rfl

/-- C10: on a successful run, Migrate has processed the migrations in input
order: the applied ids are exactly the input-order ids absent from the
ledger, the skipped list is exactly the input-order ids present in the
ledger, the schema gains the applied SQL texts in input order (not sorted by
id), and every input id lands in exactly one of the two lists. -/
theorem migrate_input_order (ok : String → Bool) (digest : String → String)
    (db db' : MigDB) (ms : List Migration) (res : MigrationResult)
    (h : Migrate ok digest db ms = (db', Except.ok res)) :
    res.Applied.map (fun a => a.ID) =
        (ms.filter (fun m => (ledgerLookup db.ledger m.ID).isNone)).map (fun m => m.ID) ∧
    res.Skipped =
        (ms.filter (fun m => (ledgerLookup db.ledger m.ID).isSome)).map (fun m => m.ID) ∧
    db'.schema = db.schema ++
        (ms.filter (fun m => (ledgerLookup db.ledger m.ID).isNone)).map (fun m => m.SQL) ∧
    (∀ m ∈ ms,
      (m.ID ∈ res.Applied.map (fun a => a.ID) ∧ m.ID ∉ res.Skipped) ∨
      (m.ID ∈ res.Skipped ∧ m.ID ∉ res.Applied.map (fun a => a.ID))) := by
  simp only [Migrate] at h
  obtain ⟨hA, hS, hsch, hled, htab, hdr⟩ :=
    migrateLoop_ok_spec ok digest (ledgerLookup (ensureMigrationsTable db).ledger)
      ms (ensureMigrationsTable db) ⟨[], []⟩ db' res h
  have hlk : ledgerLookup (ensureMigrationsTable db).ledger = ledgerLookup db.ledger := rfl
  rw [hlk] at hA hS hsch hled hdr
  have hAid : res.Applied.map (fun a => a.ID) =
      (ms.filter (fun m => (ledgerLookup db.ledger m.ID).isNone)).map (fun m => m.ID) := by
    rw [hA]
    simp [List.map_map, Function.comp]
  have hS' : res.Skipped =
      (ms.filter (fun m => (ledgerLookup db.ledger m.ID).isSome)).map (fun m => m.ID) := by
    rw [hS]
    simp
  refine ⟨hAid, hS', ?_, ?_⟩
  · rw [hsch]
    rfl
  · intro m hm
    cases hap : ledgerLookup db.ledger m.ID with
    | none =>
      left
      constructor
      · rw [hAid]
        exact List.mem_map_of_mem _ (List.mem_filter.mpr ⟨hm, by simp [hap]⟩)
      · intro hmem
        rw [hS'] at hmem
        obtain ⟨m', hm'f, hid⟩ := List.mem_map.mp hmem
        have := (List.mem_filter.mp hm'f).2
        rw [hid, hap] at this
        simp at this
    | some c =>
      right
      constructor
      · rw [hS']
        exact List.mem_map_of_mem _ (List.mem_filter.mpr ⟨hm, by simp [hap]⟩)
      · intro hmem
        rw [hAid] at hmem
        obtain ⟨m', hm'f, hid⟩ := List.mem_map.mp hmem
        have := (List.mem_filter.mp hm'f).2
        rw [hid, hap] at this
        simp at this

theorem migrate_input_order_witness :
    (⟨[⟨"b_002", "b", "SB"⟩, ⟨"a_001", "a", "SA"⟩], []⟩ : MigrationResult).Applied.map
        (fun a => a.ID) =
      (([⟨"b_002", "b", "SB"⟩, ⟨"a_001", "a", "SA"⟩] : List Migration).filter
        (fun m => (ledgerLookup (⟨false, [], []⟩ : MigDB).ledger m.ID).isNone)).map
        (fun m => m.ID) ∧
    (⟨[⟨"b_002", "b", "SB"⟩, ⟨"a_001", "a", "SA"⟩], []⟩ : MigrationResult).Skipped =
      (([⟨"b_002", "b", "SB"⟩, ⟨"a_001", "a", "SA"⟩] : List Migration).filter
        (fun m => (ledgerLookup (⟨false, [], []⟩ : MigDB).ledger m.ID).isSome)).map
        (fun m => m.ID) ∧
    (⟨true, ["SB", "SA"], [⟨"b_002", "b", "SB"⟩, ⟨"a_001", "a", "SA"⟩]⟩ : MigDB).schema =
      (⟨false, [], []⟩ : MigDB).schema ++
        (([⟨"b_002", "b", "SB"⟩, ⟨"a_001", "a", "SA"⟩] : List Migration).filter
          (fun m => (ledgerLookup (⟨false, [], []⟩ : MigDB).ledger m.ID).isNone)).map
          (fun m => m.SQL) ∧
    (∀ m ∈ ([⟨"b_002", "b", "SB"⟩, ⟨"a_001", "a", "SA"⟩] : List Migration),
      (m.ID ∈ (⟨[⟨"b_002", "b", "SB"⟩, ⟨"a_001", "a", "SA"⟩], []⟩ : MigrationResult).Applied.map
          (fun a => a.ID) ∧
        m.ID ∉ (⟨[⟨"b_002", "b", "SB"⟩, ⟨"a_001", "a", "SA"⟩], []⟩ : MigrationResult).Skipped) ∨
      (m.ID ∈ (⟨[⟨"b_002", "b", "SB"⟩, ⟨"a_001", "a", "SA"⟩], []⟩ : MigrationResult).Skipped ∧
        m.ID ∉ (⟨[⟨"b_002", "b", "SB"⟩, ⟨"a_001", "a", "SA"⟩], []⟩ : MigrationResult).Applied.map
          (fun a => a.ID))) :=
  migrate_input_order (fun _ => true) (fun s => s) ⟨false, [], []⟩
    ⟨true, ["SB", "SA"], [⟨"b_002", "b", "SB"⟩, ⟨"a_001", "a", "SA"⟩]⟩
    [⟨"b_002", "b", "SB"⟩, ⟨"a_001", "a", "SA"⟩]
    ⟨[⟨"b_002", "b", "SB"⟩, ⟨"a_001", "a", "SA"⟩], []⟩ rfl

/-- C8 counterexample: at a concrete drifted migration, the error Migrate
returns carries the catch-all UNKNOWN code, and the source's error-code
taxonomy contains no ChecksumDrift kind at all — refuting the claim that a
checksum-drift failure is reported under a distinct ChecksumDrift kind
rather than under Unknown. -/
theorem drift_error_code_counterexample :
    (Migrate (fun _ => true) (fun s => s)
        ⟨true, [], [⟨"001", "", "A"⟩]⟩ [⟨"001", "", "B"⟩]).2 =
      Except.error (driftError "001" "A" "B") ∧
    (driftError "001" "A" "B").Code = CodeUnknown ∧
    CodeUnknown = "UNKNOWN" ∧
    "CHECKSUM_DRIFT" ∉ errorCodes :=
  ⟨rfl, rfl, rfl, by decide⟩

/-- C8 amended: every error built by the classifiers carries a code from
the ten-member taxonomy NotFound, Duplicate, ForeignKey, CheckViolation,
NotNullViolation, ConnectionFailed, Timeout, Serialization, Deadlock,
Unknown; there is no ChecksumDrift kind: a checksum-drift failure from
Migrate is reported under the catch-all Unknown kind and is distinguishable
only by its message, which names the migration id and both checksums. -/
theorem error_taxonomy_amended :
    (∀ (pgErr : PgError) (op : String), (wrapPgError pgErr op).Code ∈ errorCodes) ∧
    (∀ (e : SqlErr) (op : String), (wrapError e op).Code ∈ errorCodes) ∧
    (∀ id existing got : String,
      (driftError id existing got).Code = CodeUnknown ∧
      (driftError id existing got).Code ∈ errorCodes ∧
      (driftError id existing got).Message =
        "migration " ++ id ++ " has changed (checksum mismatch: expected "
          ++ existing ++ ", got " ++ got ++ ")") := by
  refine ⟨?_, ?_, ?_⟩
  · intro pgErr op
    unfold wrapPgError
    split <;> simp [errorCodes]
  · intro e op
    simp [wrapError, errorCodes]
  · intro id existing got
    exact ⟨rfl, by simp [driftError, errorCodes], rfl⟩

end DBKit
